import Mathlib

/-!
Verification of the logical-clock simulation engine of rjiang15/262design2.

Shallow embedding of:
  - src/src/logical_clock.py  (class LogicalClock)
  - src/src/virtual_machine.py (class VirtualMachine: queue, sends, run_tick)
  - src/src/network.py        (connect_to_peer retry loop, handle_client)

Python machine state is modelled by explicit state passing; each mutating
method returns the updated state together with its return value.  Python
ints are Lean Int.  The random draw in run_tick is passed in as an explicit
argument, and the support of the draw is modelled separately.
-/

/-- State of src/src/logical_clock.py class LogicalClock: a single field
`time`, initialised to 0 by default. -/
structure LogicalClock where
  time : Int
  deriving Repr, DecidableEq

/-- Default construction LogicalClock(): initial = 0. -/
def LogicalClock.init : LogicalClock := ⟨0⟩

/-- tick(): `self.time += 1; return self.time`.  Returns (return value, new state). -/
def LogicalClock.tick (c : LogicalClock) : Int × LogicalClock :=
  (c.time + 1, ⟨c.time + 1⟩)

/-- update(received_time): `self.time = max(self.time, received_time) + 1;
return self.time`.  Returns (return value, new state). -/
def LogicalClock.update (c : LogicalClock) (received_time : Int) : Int × LogicalClock :=
  (max c.time received_time + 1, ⟨max c.time received_time + 1⟩)

/-- Attributes bound on a LogicalClock instance by the class body of
src/src/logical_clock.py: `time` (set in init), and the methods
`tick` and `update`.  No other attribute is defined. -/
def LogicalClock.instanceAttrs : List String := ["time", "tick", "update"]

/-- Python attribute lookup of `get_time` on a LogicalClock, as it resolves
against src/src/logical_clock.py: the name is looked up among the instance
attributes; a missing name raises AttributeError. -/
def LogicalClock.lookupGetTime (c : LogicalClock) : Except String Int :=
  if "get_time" ∈ LogicalClock.instanceAttrs then Except.ok c.time
  else Except.error "AttributeError"

/-- Modelled from the spec: `read() -> currentValue`, non-mutating.  The
method `get_time` is called throughout src/src/virtual_machine.py and is
asserted by the repository test suite (test_logical_clock.test_get_time:
returns `clock.time` without modifying it), but its definition is missing
from src/src/logical_clock.py. -/
def LogicalClock.get_time (c : LogicalClock) : Int := c.time

/-- One call on a LogicalClock: tick() or update(x). -/
inductive ClockOp where
  | tick : ClockOp
  | update (x : Int) : ClockOp
  deriving Repr, DecidableEq

/-- Apply one call to the clock state. -/
def LogicalClock.applyOp (c : LogicalClock) : ClockOp → LogicalClock
  | ClockOp.tick => (c.tick).2
  | ClockOp.update x => (c.update x).2

/-- Apply a finite sequence of calls, oldest first. -/
def LogicalClock.runOps (c : LogicalClock) : List ClockOp → LogicalClock
  | [] => c
  | op :: ops => (c.applyOp op).runOps ops

/-- Wire message: a Python dict whose only field read by the core logic is
"clock" (message.get("clock", 0)); `clock = none` models a dict without the
"clock" key, as produced by run_tick sending `{}` before the send path
assigns it. -/
structure Message where
  clock : Option Int
  deriving Repr, DecidableEq

/-- One log line emitted by VirtualMachine.log_event, abstracted to its
event kind and the numeric values interpolated into the line. -/
inductive Event where
  | received (old incoming new : Int) (queueLen : Nat) : Event
  | internal (old new : Int) : Event
  | sent (peer : Nat) (old new : Int) : Event
  | sentDirect (peer : Nat) (old new : Int) : Event
  | netSendError (peer : Nat) : Event
  | noConnection (peer : Nat) : Event
  | localTickAfterFail (old new : Int) : Event
  deriving Repr, DecidableEq

/-- Outcome of one `sock.sendall(...)` call on an existing socket: either it
returns, or it raises a network exception. -/
inductive NetResult where
  | ok : NetResult
  | err : NetResult
  deriving Repr, DecidableEq

/-- State of src/src/virtual_machine.py class VirtualMachine that the core
logic touches: id, clock, inbound queue, peer id list (multi-process mode),
the set of peer ids holding a connected socket (keys of peer_sockets), the
send threshold, and the event log. -/
structure VirtualMachine where
  vm_id : Nat
  clock : LogicalClock
  msg_queue : List Message
  peers : List Nat
  sockets : List Nat
  send_threshold : Nat
  log : List Event
  deriving Repr, DecidableEq

/-- receive_message(message): `self.msg_queue.append(message)`. -/
def VirtualMachine.receive_message (vm : VirtualMachine) (m : Message) : VirtualMachine :=
  { vm with msg_queue := vm.msg_queue ++ [m] }

/-- process_message(message) as src/src/virtual_machine.py executes it: the
first statement is `old_clock = self.clock.get_time()`, an attribute lookup
that fails against src/src/logical_clock.py, so the whole call raises. -/
def VirtualMachine.process_message_lookup (vm : VirtualMachine) (m : Message) :
    Except String VirtualMachine := do
  let old ← vm.clock.lookupGetTime
  let incoming := m.clock.getD 0
  let (newClock, clk) := vm.clock.update incoming
  Except.ok { vm with
              clock := clk
              log := vm.log ++ [Event.received old incoming newClock vm.msg_queue.length] }

/-- process_message(message), with the missing LogicalClock.get_time
modelled from the spec (see LogicalClock.get_time): read the old clock,
take `message.get("clock", 0)`, apply the Lamport update, log the Received
line with the current queue length. -/
def VirtualMachine.process_message (vm : VirtualMachine) (m : Message) : VirtualMachine :=
  let old := vm.clock.get_time
  let incoming := m.clock.getD 0
  let (newClock, clk) := vm.clock.update incoming
  { vm with
    clock := clk
    log := vm.log ++ [Event.received old incoming newClock vm.msg_queue.length] }

/-- internal_event(): read old clock (spec-modelled get_time), tick, log. -/
def VirtualMachine.internal_event (vm : VirtualMachine) : VirtualMachine :=
  let old := vm.clock.get_time
  let (newClock, clk) := vm.clock.tick
  { vm with clock := clk, log := vm.log ++ [Event.internal old newClock] }

/-- Result of a multi-process send: the sender state afterwards, and the
message written to the socket when sendall succeeded. -/
structure SendByIdResult where
  vm : VirtualMachine
  wire : Option Message
  deriving Repr, DecidableEq

/-- send_message_by_id(peer_id, message): attach the OLD clock value (read
via the spec-modelled get_time) as message["clock"], then: if a socket to
the peer exists, sendall and tick on success, or log the error and tick on
failure; with no socket, log "not sent" and tick.  Every path ticks exactly
once, always after the transport attempt. -/
def VirtualMachine.send_message_by_id (vm : VirtualMachine) (peer_id : Nat)
    (m : Message) (net : NetResult) : SendByIdResult :=
  let old := vm.clock.get_time
  let m := { m with clock := some old }
  if peer_id ∈ vm.sockets then
    match net with
    | NetResult.ok =>
        let (newClock, clk) := vm.clock.tick
        { vm := { vm with clock := clk, log := vm.log ++ [Event.sent peer_id old newClock] },
          wire := some m }
    | NetResult.err =>
        let (newClock, clk) := vm.clock.tick
        { vm := { vm with
                  clock := clk
                  log := vm.log ++ [Event.netSendError peer_id,
                                    Event.localTickAfterFail old newClock] },
          wire := none }
  else
    let (newClock, clk) := vm.clock.tick
    { vm := { vm with
              clock := clk
              log := vm.log ++ [Event.noConnection peer_id,
                                Event.localTickAfterFail old newClock] },
      wire := none }

/-- Result of an intra-process-style send: sender and target states, and
the message written to the socket when one was used successfully. -/
structure SendResult where
  sender : VirtualMachine
  target : VirtualMachine
  wire : Option Message
  deriving Repr, DecidableEq

/-- send_message(target_vm, message): attach the OLD clock value as
message["clock"]; if a socket to the target exists, sendall then tick on
success, but on a sendall exception only log the error — NO tick; with no
socket, deliver directly into the target queue via receive_message, then
tick. -/
def VirtualMachine.send_message (vm : VirtualMachine) (target : VirtualMachine)
    (m : Message) (net : NetResult) : SendResult :=
  let old := vm.clock.get_time
  let m := { m with clock := some old }
  if target.vm_id ∈ vm.sockets then
    match net with
    | NetResult.ok =>
        let (newClock, clk) := vm.clock.tick
        { sender := { vm with
                      clock := clk
                      log := vm.log ++ [Event.sent target.vm_id old newClock] },
          target := target, wire := some m }
    | NetResult.err =>
        { sender := { vm with log := vm.log ++ [Event.netSendError target.vm_id] },
          target := target, wire := none }
  else
    let target2 := target.receive_message m
    let (newClock, clk) := vm.clock.tick
    { sender := { vm with
                  clock := clk
                  log := vm.log ++ [Event.sentDirect target.vm_id old newClock] },
      target := target2, wire := none }

/-- Result of run_tick: the machine afterwards and the wire messages
(peer id, message) actually written to sockets during this tick. -/
structure TickResult where
  vm : VirtualMachine
  wires : List (Nat × Message)
  deriving Repr, DecidableEq

/-- Fold of send_message_by_id over the peer list, as the
`for p in self.peers` loop of the event_choice == 3 branch. -/
def VirtualMachine.send_to_all (vm : VirtualMachine) (ps : List Nat)
    (net : Nat → NetResult) (acc : List (Nat × Message)) : TickResult :=
  match ps with
  | [] => { vm := vm, wires := acc }
  | p :: rest =>
      let r := vm.send_message_by_id p ⟨none⟩ (net p)
      r.vm.send_to_all rest net
        (acc ++ (match r.wire with | some w => [(p, w)] | none => []))

/-- run_tick(), with the draw `event_choice = random.randint(1,
self.send_threshold)` passed in as r and per-peer sendall outcomes passed
in as net.  If the queue is non-empty, pop the head and process it;
otherwise dispatch on r: 1 with a peer sends to peers[0]; 2 with at least
two peers sends to peers[1]; 3 with a peer sends to every peer; any other
case is an internal event. -/
def VirtualMachine.run_tick (vm : VirtualMachine) (r : Nat)
    (net : Nat → NetResult) : TickResult :=
  match vm.msg_queue with
  | msg :: rest =>
      { vm := VirtualMachine.process_message { vm with msg_queue := rest } msg, wires := [] }
  | [] =>
      match r, vm.peers with
      | 1, p :: _ =>
          let s := vm.send_message_by_id p ⟨none⟩ (net p)
          { vm := s.vm, wires := match s.wire with | some w => [(p, w)] | none => [] }
      | 2, _ :: p :: _ =>
          let s := vm.send_message_by_id p ⟨none⟩ (net p)
          { vm := s.vm, wires := match s.wire with | some w => [(p, w)] | none => [] }
      | 3, p :: rest =>
          vm.send_to_all (p :: rest) net []
      | _, _ => { vm := vm.internal_event, wires := [] }

/-- Support of the decision draw made by run_tick when the queue is empty:
`random.randint(1, self.send_threshold)` returns a uniform integer in the
inclusive range [1, send_threshold]. -/
def VirtualMachine.drawSupport (vm : VirtualMachine) : List Nat :=
  List.range' 1 vm.send_threshold

/-- The support the spec claims for the decision draw: a uniform random
integer in [1, 10] (written from the spec, for comparison with
VirtualMachine.drawSupport). -/
def specDrawSupport : List Nat := List.range' 1 10

/-- Outcome of one `client_socket.connect((host, port))` call in
src/src/network.py connect_to_peer: it returns, raises
ConnectionRefusedError, or raises some other exception. -/
inductive ConnOutcome where
  | ok : ConnOutcome
  | refused : ConnOutcome
  | exn : ConnOutcome
  deriving Repr, DecidableEq

/-- Observable result of connect_to_peer: the returned socket (none models
Python None), the number of connect() calls made, and the number of
time.sleep(retry_delay) calls made. -/
structure ConnectResult where
  socket : Option Unit
  attempts : Nat
  sleeps : Nat
  deriving Repr, DecidableEq

/-- The `while attempt < max_retries` loop of connect_to_peer: each
iteration makes one connect() call (its outcome given by `outcomes` at the
index of that call); success returns the socket, ConnectionRefusedError
increments `attempt`, sleeps retry_delay, and continues, any other
exception logs and breaks; falling out of the loop returns None. -/
def connectLoop (outcomes : Nat → ConnOutcome) (max_retries attempt made slept : Nat) :
    ConnectResult :=
  if h : attempt < max_retries then
    match outcomes made with
    | ConnOutcome.ok => { socket := some (), attempts := made + 1, sleeps := slept }
    | ConnOutcome.refused => connectLoop outcomes max_retries (attempt + 1) (made + 1) (slept + 1)
    | ConnOutcome.exn => { socket := none, attempts := made + 1, sleeps := slept }
  else { socket := none, attempts := made, sleeps := slept }
termination_by max_retries - attempt
decreasing_by omega

/-- connect_to_peer(vm, peer_vm_id, ..., max_retries, retry_delay): run the
retry loop starting from attempt = 0 with no connect calls made yet. -/
def connect_to_peer (outcomes : Nat → ConnOutcome) (max_retries : Nat) : ConnectResult :=
  connectLoop outcomes max_retries 0 0 0

/-- Node A of the concrete scenarios: clock at 5, one peer (id 2) with a
connected socket. -/
def vmA : VirtualMachine :=
  { vm_id := 1, clock := ⟨5⟩, msg_queue := [], peers := [2], sockets := [2],
    send_threshold := 3, log := [] }

/-- Node B of the concrete scenarios: id 2, clock at 3, empty queue. -/
def vmB : VirtualMachine :=
  { vm_id := 2, clock := ⟨3⟩, msg_queue := [], peers := [1], sockets := [1],
    send_threshold := 3, log := [] }

/-- The wire message produced when vmA sends `{}` to peer 2 over a working
socket. -/
def wireAB : Message :=
  ((vmA.send_message_by_id 2 ⟨none⟩ NetResult.ok).wire).getD ⟨none⟩

/-- A machine with the default send_threshold = 3 (as constructed by
VirtualMachine.init when no threshold is passed). -/
def vmDefaultThreshold : VirtualMachine :=
  { vm_id := 1, clock := ⟨0⟩, msg_queue := [], peers := [2, 3], sockets := [],
    send_threshold := 3, log := [] }

/-- A machine configured with send_threshold = 10 and exactly one peer, as
in the one-peer fallback scenario. -/
def vmOnePeer : VirtualMachine :=
  { vm_id := 1, clock := ⟨0⟩, msg_queue := [], peers := [2], sockets := [2],
    send_threshold := 10, log := [] }

/-- A machine configured with no peers at all (an empty peer list), as
after every connection attempt failed. -/
def vmZeroPeers : VirtualMachine :=
  { vm_id := 3, clock := ⟨0⟩, msg_queue := [], peers := [], sockets := [],
    send_threshold := 10, log := [] }

/-- A machine whose queue holds one dict-shaped message without a "clock"
key, clock at 3. -/
def vmNoClockMsg : VirtualMachine :=
  { vm_id := 2, clock := ⟨3⟩, msg_queue := [⟨none⟩], peers := [1], sockets := [1],
    send_threshold := 3, log := [] }
/-- C1: For every LogicalClock with current value t and every integer x,
update(x) sets the clock to max(t, x) + 1 and returns that value; with the
clock at 10, update(5) returns 11, update(15) returns 16, update(10)
returns 11. -/
theorem update_lamport_rule :
    (∀ (c : LogicalClock) (x : Int),
        (c.update x).1 = max c.time x + 1 ∧ (c.update x).2.time = max c.time x + 1)
    ∧ ((LogicalClock.mk 10).update 5).1 = 11
    ∧ ((LogicalClock.mk 10).update 15).1 = 16
    ∧ ((LogicalClock.mk 10).update 10).1 = 11 := by
  refine ⟨fun c x => ⟨rfl, rfl⟩, by decide, by decide, by decide⟩

/-- Every single tick()/update(x) call strictly increases the clock value. -/
theorem applyOp_strict_mono (c : LogicalClock) (op : ClockOp) :
    c.time < (c.applyOp op).time := by
  cases op with
  | tick => exact lt_add_one c.time
  | update x =>
      have h : c.time ≤ max c.time x := le_max_left c.time x
      calc c.time ≤ max c.time x := h
        _ < max c.time x + 1 := lt_add_one _

/-- C2: each tick()/update(x) call strictly increases the clock value, and
over any finite sequence of calls the value is non-decreasing (never
reset). -/
theorem clock_monotone :
    (∀ (c : LogicalClock) (op : ClockOp), c.time < (c.applyOp op).time)
    ∧ ∀ (c : LogicalClock) (ops : List ClockOp), c.time ≤ (c.runOps ops).time := by
  refine ⟨applyOp_strict_mono, fun c ops => ?_⟩
  induction ops generalizing c with
  | nil => exact le_refl _
  | cons op ops ih =>
      exact le_trans (le_of_lt (applyOp_strict_mono c op)) (ih (c.applyOp op))


/-- C3: the claim says LogicalClock provides a non-mutating read operation
and that process_message and the other clock-reading VirtualMachine
operations never raise when reading the clock.  Against the source this
fails: src/src/logical_clock.py defines only `time`, `tick` and `update`,
so the `self.clock.get_time()` call that begins process_message (and
internal_event, send_message, send_message_by_id) raises AttributeError on
every input — even though the repository test suite asserts get_time
exists and is non-mutating. -/
theorem process_message_get_time_raises :
    (∀ c : LogicalClock, c.lookupGetTime = Except.error "AttributeError")
    ∧ ∀ (vm : VirtualMachine) (m : Message),
        vm.process_message_lookup m = Except.error "AttributeError" := by
  exact ⟨fun c => rfl, fun vm m => rfl⟩

/-- C4 counterexample: the claim says tick() runs first and the
post-increment value is attached as senderClock.  Concretely, vmA (clock
5) sending `{}` to peer 2 over a working socket puts clock 5 on the wire
while the post-tick clock is 6, so the wire does not carry the post-tick
value. -/
theorem send_attaches_pre_tick_counterexample :
    (vmA.send_message_by_id 2 ⟨none⟩ NetResult.ok).wire = some ⟨some 5⟩
    ∧ (vmA.send_message_by_id 2 ⟨none⟩ NetResult.ok).vm.clock.time = 6
    ∧ ¬ (vmA.send_message_by_id 2 ⟨none⟩ NetResult.ok).wire
        = some ⟨some ((vmA.send_message_by_id 2 ⟨none⟩ NetResult.ok).vm.clock.time)⟩ := by
  decide

/-- C4 amended: for every send, the PRE-tick clock value (read via
get_time) is attached as the message's clock before the transport attempt,
and on a successful socket send the clock is ticked afterwards to one more
than the attached value. -/
theorem send_attaches_old_clock (vm : VirtualMachine) (pid : Nat) (m : Message) :
    ((vm.send_message_by_id pid m NetResult.ok).wire
        = if pid ∈ vm.sockets then some { m with clock := some vm.clock.time } else none)
    ∧ (vm.send_message_by_id pid m NetResult.ok).vm.clock.time = vm.clock.time + 1
    ∧ ∀ t : VirtualMachine,
        (vm.send_message t m NetResult.ok).wire
          = if t.vm_id ∈ vm.sockets then some { m with clock := some vm.clock.time }
            else none := by
  refine ⟨?_, ?_, ?_⟩
  · by_cases h : pid ∈ vm.sockets <;>
      simp [VirtualMachine.send_message_by_id, h, LogicalClock.get_time]
  · by_cases h : pid ∈ vm.sockets <;>
      simp [VirtualMachine.send_message_by_id, h, LogicalClock.get_time, LogicalClock.tick]
  · intro t
    by_cases h : t.vm_id ∈ vm.sockets <;>
      simp [VirtualMachine.send_message, h, LogicalClock.get_time]

/-- C5 counterexample: the claim says the decision value is drawn
uniformly from [1, 10]; with the default send_threshold = 3 the draw
`random.randint(1, self.send_threshold)` has support {1, 2, 3}, not
[1, 10]. -/
theorem draw_support_counterexample :
    vmDefaultThreshold.drawSupport ≠ specDrawSupport := by
  decide

/-- C5 amended: the decision value r is drawn uniformly from
[1, sendThreshold] (so r never exceeds sendThreshold), and whenever the
queue is empty and either r is none of 1, 2, 3, or r is 1 or 3 with no
peers configured, or r is 2 with fewer than two peers, the node performs
an internal event (clock.tick() only) and sends nothing. -/
theorem draw_support_and_internal_fallback :
    (∀ vm : VirtualMachine, ∀ r ∈ vm.drawSupport, 1 ≤ r ∧ r ≤ vm.send_threshold)
    ∧ ∀ (vm : VirtualMachine) (r : Nat) (net : Nat → NetResult),
        vm.msg_queue = [] →
        ((r ≠ 1 ∧ r ≠ 2 ∧ r ≠ 3)
          ∨ (r = 1 ∧ vm.peers = [])
          ∨ (r = 2 ∧ vm.peers.length < 2)
          ∨ (r = 3 ∧ vm.peers = [])) →
        (vm.run_tick r net).vm = vm.internal_event ∧ (vm.run_tick r net).wires = [] := by
  constructor
  · intro vm r hr
    rw [VirtualMachine.drawSupport, List.mem_range'_1] at hr
    omega
  · intro vm r net hq hcase
    obtain ⟨id, clk, q, peers, socks, st, lg⟩ := vm
    simp only at hq hcase
    subst hq
    rcases hcase with ⟨h1, h2, h3⟩ | ⟨hr, hp⟩ | ⟨hr, hp⟩ | ⟨hr, hp⟩
    · match r, h1, h2, h3 with
      | 0, _, _, _ => exact ⟨rfl, rfl⟩
      | n + 4, _, _, _ =>
          cases peers <;> exact ⟨rfl, rfl⟩
      | 1, h1, _, _ => exact absurd rfl h1
      | 2, _, h2, _ => exact absurd rfl h2
      | 3, _, _, h3 => exact absurd rfl h3
    · subst hr; subst hp
      exact ⟨rfl, rfl⟩
    · subst hr
      rcases peers with _ | ⟨p, _ | ⟨p2, rest⟩⟩
      · exact ⟨rfl, rfl⟩
      · exact ⟨rfl, rfl⟩
      · exfalso
        simp only [List.length_cons] at hp
        omega
    · subst hr; subst hp
      exact ⟨rfl, rfl⟩

/-- C5 amended witness: for vmOnePeer the draw value 2 lies within
[1, send_threshold]; with an empty queue a draw of r = 7 makes run_tick
perform exactly an internal event, and so does a draw of r = 3 on a
machine with no peers. -/
theorem draw_support_and_internal_fallback_witness :
    (1 ≤ 2 ∧ 2 ≤ vmOnePeer.send_threshold)
    ∧ ((vmOnePeer.run_tick 7 (fun _ => NetResult.ok)).vm = vmOnePeer.internal_event
        ∧ (vmOnePeer.run_tick 7 (fun _ => NetResult.ok)).wires = [])
    ∧ ((vmZeroPeers.run_tick 3 (fun _ => NetResult.ok)).vm = vmZeroPeers.internal_event
        ∧ (vmZeroPeers.run_tick 3 (fun _ => NetResult.ok)).wires = []) :=
  ⟨draw_support_and_internal_fallback.1 vmOnePeer 2 (by decide),
   draw_support_and_internal_fallback.2 vmOnePeer 7 (fun _ => NetResult.ok) rfl
     (Or.inl ⟨by decide, by decide, by decide⟩),
   draw_support_and_internal_fallback.2 vmZeroPeers 3 (fun _ => NetResult.ok) rfl
     (Or.inr (Or.inr (Or.inr ⟨rfl, rfl⟩)))⟩

/-- C6: if node A sends a message over a working socket after observing
clock value c (the value attached on the wire), any node B that processes
that wire message ends with a clock strictly greater than c; concretely,
vmA at clock 5 sending to vmB at clock 3 with no prior queue grows B's
queue to exactly one message, and B's next tick processes it and leaves
B's clock at 6. -/
theorem causal_consistency :
    (∀ (a b : VirtualMachine) (pid : Nat) (m w : Message),
        (a.send_message_by_id pid m NetResult.ok).wire = some w →
        a.clock.time < (b.process_message w).clock.time)
    ∧ (vmB.receive_message wireAB).msg_queue.length = 1
    ∧ ((vmB.receive_message wireAB).run_tick 1 (fun _ => NetResult.ok)).vm.clock.time = 6 := by
  refine ⟨?_, by decide, by decide⟩
  intro a b pid m w hw
  by_cases h : pid ∈ a.sockets
  · simp [VirtualMachine.send_message_by_id, h, LogicalClock.get_time] at hw
    subst hw
    simp [VirtualMachine.process_message, LogicalClock.update, LogicalClock.get_time]
    exact lt_of_le_of_lt (le_max_right _ _) (lt_add_one _)
  · simp [VirtualMachine.send_message_by_id, h] at hw

/-- C6 witness: the general causal bound applied to the concrete pair vmA
(clock 5) and vmB (clock 3) with the wire message vmA actually produces. -/
theorem causal_consistency_witness :
    vmA.clock.time < (vmB.process_message wireAB).clock.time :=
  causal_consistency.1 vmA vmB 2 ⟨none⟩ wireAB (by decide)

/-- C7: when the draw selects the second peer (r = 2) but fewer than two
peers are configured (zero or one), run_tick falls back to an internal
event — no send, no out-of-range indexing (the guard requires at least
two peers before peers[1] is read). -/
theorem second_peer_fallback (vm : VirtualMachine) (net : Nat → NetResult)
    (hq : vm.msg_queue = []) (hp : vm.peers.length < 2) :
    (vm.run_tick 2 net).vm = vm.internal_event ∧ (vm.run_tick 2 net).wires = [] := by
  obtain ⟨id, clk, q, peers, socks, st, lg⟩ := vm
  simp only at hq hp
  subst hq
  rcases peers with _ | ⟨p, _ | ⟨p2, rest⟩⟩
  · exact ⟨rfl, rfl⟩
  · exact ⟨rfl, rfl⟩
  · exfalso
    simp only [List.length_cons] at hp
    omega

/-- C7 witness: a machine with send_threshold = 10 and exactly one peer,
on a draw of r = 2, performs an internal event and sends nothing; so does
a machine with no peers at all. -/
theorem second_peer_fallback_witness :
    ((vmOnePeer.run_tick 2 (fun _ => NetResult.ok)).vm = vmOnePeer.internal_event
      ∧ (vmOnePeer.run_tick 2 (fun _ => NetResult.ok)).wires = [])
    ∧ ((vmZeroPeers.run_tick 2 (fun _ => NetResult.ok)).vm = vmZeroPeers.internal_event
      ∧ (vmZeroPeers.run_tick 2 (fun _ => NetResult.ok)).wires = []) :=
  ⟨second_peer_fallback vmOnePeer (fun _ => NetResult.ok) rfl (by decide),
   second_peer_fallback vmZeroPeers (fun _ => NetResult.ok) rfl (by decide)⟩

/-- C8 counterexample: the claim says every send attempt leaves the clock
exactly one greater.  Concretely, vmA (clock 5) attempting send_message to
vmB over a socket whose sendall raises keeps its clock at 5, not 6: the
intra-process send_message error path only logs and never ticks. -/
theorem failed_send_no_tick_counterexample :
    (vmA.send_message vmB ⟨none⟩ NetResult.err).sender.clock.time = 5
    ∧ vmA.clock.time = 5
    ∧ ¬ (vmA.send_message vmB ⟨none⟩ NetResult.err).sender.clock.time
        = vmA.clock.time + 1 := by
  decide

/-- C8 amended: the clock advance happens after the transport attempt, not
before.  send_message_by_id advances the clock by exactly one on every
path (success, sendall error, no connection) and never touches the queue,
while send_message advances by one on the success and direct-delivery
paths but leaves the clock unchanged when sendall raises. -/
theorem send_clock_advance :
    (∀ (vm : VirtualMachine) (pid : Nat) (m : Message) (net : NetResult),
        (vm.send_message_by_id pid m net).vm.clock.time = vm.clock.time + 1
        ∧ (vm.send_message_by_id pid m net).vm.msg_queue = vm.msg_queue)
    ∧ ∀ (a t : VirtualMachine) (m : Message) (net : NetResult),
        (a.send_message t m net).sender.clock.time =
          (if t.vm_id ∈ a.sockets then
             (match net with
              | NetResult.ok => a.clock.time + 1
              | NetResult.err => a.clock.time)
           else a.clock.time + 1) := by
  constructor
  · intro vm pid m net
    by_cases h : pid ∈ vm.sockets <;> cases net <;>
      simp [VirtualMachine.send_message_by_id, h, LogicalClock.get_time, LogicalClock.tick]
  · intro a t m net
    by_cases h : t.vm_id ∈ a.sockets <;> cases net <;>
      simp [VirtualMachine.send_message, h, LogicalClock.get_time, LogicalClock.tick]

/-- When every connect() call raises ConnectionRefusedError, the retry
loop started at `attempt = a` with budget `a + d` makes exactly d more
connect calls and d more sleeps and returns no socket. -/
theorem connectLoop_all_refused (outcomes : Nat → ConnOutcome)
    (href : ∀ n, outcomes n = ConnOutcome.refused) :
    ∀ d a m s : Nat,
      connectLoop outcomes (a + d) a m s
        = { socket := none, attempts := m + d, sleeps := s + d } := by
  intro d
  induction d with
  | zero =>
      intro a m s
      rw [connectLoop]
      simp
  | succ d ih =>
      intro a m s
      rw [connectLoop]
      have hlt : a < a + (d + 1) := by omega
      simp only [hlt, dif_pos, href m]
      have e : a + (d + 1) = (a + 1) + d := by omega
      rw [e, ih (a + 1) (m + 1) (s + 1)]
      have e1 : m + 1 + d = m + (d + 1) := by omega
      have e2 : s + 1 + d = s + (d + 1) := by omega
      rw [e1, e2]

/-- C9: a connect_to_peer call against a peer that refuses every
connection makes exactly max_retries connect attempts, sleeping the fixed
retry delay between them, and then returns None (a failure signal) instead
of blocking further or raising. -/
theorem connect_retry_exhaustion (outcomes : Nat → ConnOutcome) (max_retries : Nat)
    (href : ∀ n, outcomes n = ConnOutcome.refused) :
    connect_to_peer outcomes max_retries
      = { socket := none, attempts := max_retries, sleeps := max_retries } := by
  have h := connectLoop_all_refused outcomes href max_retries 0 0 0
  simpa [connect_to_peer] using h

/-- C9 witness: with max_retries = 3 and every attempt refused, exactly 3
attempts are made and None is returned. -/
theorem connect_retry_exhaustion_witness :
    connect_to_peer (fun _ => ConnOutcome.refused) 3
      = { socket := none, attempts := 3, sleeps := 3 } :=
  connect_retry_exhaustion (fun _ => ConnOutcome.refused) 3 (fun _ => rfl)

/-- C10: a dict-shaped message without a "clock" key is treated as sender
clock 0: the next tick dequeues it, sets the clock to
max(currentValue, 0) + 1, and logs it as received with the remaining queue
length — it is not rejected. -/
theorem missing_clock_defaults_to_zero (vm : VirtualMachine) (m : Message)
    (rest : List Message) (r : Nat) (net : Nat → NetResult)
    (hm : m.clock = none) (hq : vm.msg_queue = m :: rest) :
    (vm.run_tick r net).vm.clock.time = max vm.clock.time 0 + 1
    ∧ (vm.run_tick r net).vm.msg_queue = rest
    ∧ (vm.run_tick r net).vm.log
        = vm.log ++ [Event.received vm.clock.time 0 (max vm.clock.time 0 + 1) rest.length]
    ∧ (vm.run_tick r net).wires = [] := by
  obtain ⟨id, clk, q, peers, socks, st, lg⟩ := vm
  obtain ⟨mc⟩ := m
  simp only at hm hq
  subst hm; subst hq
  exact ⟨rfl, rfl, rfl, rfl⟩

/-- C10 witness: vmNoClockMsg (clock 3, queue holding one message without
a "clock" key) dequeues it and ends at clock max(3, 0) + 1 = 4, logging
the receipt. -/
theorem missing_clock_defaults_to_zero_witness :
    (vmNoClockMsg.run_tick 1 (fun _ => NetResult.ok)).vm.clock.time
        = max vmNoClockMsg.clock.time 0 + 1
    ∧ (vmNoClockMsg.run_tick 1 (fun _ => NetResult.ok)).vm.msg_queue = []
    ∧ (vmNoClockMsg.run_tick 1 (fun _ => NetResult.ok)).vm.log
        = vmNoClockMsg.log
          ++ [Event.received vmNoClockMsg.clock.time 0
                (max vmNoClockMsg.clock.time 0 + 1) (List.length ([] : List Message))]
    ∧ (vmNoClockMsg.run_tick 1 (fun _ => NetResult.ok)).wires = [] :=
  missing_clock_defaults_to_zero vmNoClockMsg ⟨none⟩ [] 1 (fun _ => NetResult.ok) rfl rfl
